import Mathlib

/-!
Shallow embedding of `src/front-end/src/ui/event.rs` from ytui-music:
the focus-driven event dispatch and navigation state machine.

Modelling conventions:
- Rust `usize` values are modelled as `Nat` (the code never relies on
  wraparound: `checked_sub` is used for every subtraction and page
  increment overflow is out of scope for the spec's claims).
- Closures over the shared `Arc<Mutex<ui::State>>` become pure functions
  `State → HOut`, where `HOut` records the post-state and whether
  `notifier.notify_all()` was called on that path.
- A Rust panic (an `unwrap()` on `None`/`Err`, an out-of-bounds index,
  `unreachable!`) is modelled as the handler returning `none`.
- Pieces of the `ui`/`fetcher` modules that the repository does not ship
  under `src/` (only `event.rs` is present) are modelled from the spec and
  marked `Modelled from the spec:` in their doc comments.
-/

namespace YtuiMusic

/-- Direction selector for list/page advancement (`enum HeadTo`). -/
inductive HeadTo
  | Initial
  | Next
  | Prev
deriving DecidableEq, Repr

/-- `fn advance_index(current: usize, limit: usize, direction: HeadTo) -> usize`.
If `limit == 0` returns 0; otherwise `Next` is `(current + 1) % limit`,
`Prev` is `current.checked_sub(1).unwrap_or(limit - 1) % limit`
(modelled as the `current = 0` case split), `Initial` returns `current`. -/
def advance_index (current limit : Nat) (direction : HeadTo) : Nat :=
  if limit = 0 then 0
  else
    match direction with
    | HeadTo.Next => (current + 1) % limit
    | HeadTo.Prev => (if current = 0 then limit - 1 else current - 1) % limit
    | HeadTo.Initial => current

/-- `fn get_page(current: &Option<usize>, direction: HeadTo) -> usize`.
`None` yields 0; `Some(prev)` yields 0 for `Initial`, `prev + 1` for `Next`,
and `prev.checked_sub(1).unwrap_or_default()` (i.e. saturating `prev - 1`)
for `Prev`. -/
def get_page (current : Option Nat) (direction : HeadTo) : Nat :=
  match current with
  | none => 0
  | some prev =>
    match direction with
    | HeadTo.Initial => 0
    | HeadTo.Next => prev + 1
    | HeadTo.Prev => prev - 1

theorem advance_index_pos_next (current limit : Nat) (h : 0 < limit) :
    advance_index current limit HeadTo.Next = (current + 1) % limit := by
  simp [advance_index, Nat.pos_iff_ne_zero.mp h]

theorem advance_index_pos_prev (current limit : Nat) (h : 0 < limit) :
    advance_index current limit HeadTo.Prev =
      (if current = 0 then limit - 1 else (current - 1) % limit) := by
  have hne : limit ≠ 0 := Nat.pos_iff_ne_zero.mp h
  by_cases hc : current = 0
  · simp [advance_index, hne, hc, Nat.mod_eq_of_lt (Nat.sub_lt h Nat.one_pos)]
  · simp [advance_index, hne, hc]

/-- Claim C7: `advance_index` is pure and total; with `limit = 0` it returns 0
for every current index and direction; with `limit > 0`, `Next` yields
`(current + 1) mod limit`, `Prev` yields `limit - 1` when `current = 0` and
`(current - 1) mod limit` otherwise, `Initial` yields `current` unchanged,
and for `Next`/`Prev` the result lies in `[0, limit)`. -/
theorem advance_index_spec (current limit : Nat) :
    (advance_index current 0 HeadTo.Next = 0 ∧
     advance_index current 0 HeadTo.Prev = 0 ∧
     advance_index current 0 HeadTo.Initial = 0) ∧
    (0 < limit →
      advance_index current limit HeadTo.Next = (current + 1) % limit ∧
      advance_index current limit HeadTo.Prev =
        (if current = 0 then limit - 1 else (current - 1) % limit) ∧
      advance_index current limit HeadTo.Initial = current ∧
      advance_index current limit HeadTo.Next < limit ∧
      advance_index current limit HeadTo.Prev < limit) := by
  refine ⟨⟨rfl, rfl, rfl⟩, fun h => ?_⟩
  have hne : limit ≠ 0 := Nat.pos_iff_ne_zero.mp h
  refine ⟨advance_index_pos_next current limit h,
          advance_index_pos_prev current limit h,
          by simp [advance_index, hne], ?_, ?_⟩
  · simp only [advance_index, hne, if_false]
    exact Nat.mod_lt _ h
  · simp only [advance_index, hne, if_false]
    exact Nat.mod_lt _ h

/-- Witness for C7 at `current = 2`, `limit = 3`: pressing Next wraps `2 ↦ 0`. -/
theorem advance_index_spec_witness :
    advance_index 2 3 HeadTo.Next = (2 + 1) % 3 :=
  ((advance_index_spec 2 3).2 (by decide)).1

/-- Claim C8: `get_page` is pure and total; a `None` current page yields 0 for
every direction; `Some p` yields `p + 1` for `Next`, `p - 1` saturating at 0
for `Prev` (never negative, modelled by `Nat` subtraction), and 0 for
`Initial`. -/
theorem get_page_spec (p : Nat) :
    (get_page none HeadTo.Initial = 0 ∧
     get_page none HeadTo.Next = 0 ∧
     get_page none HeadTo.Prev = 0) ∧
    get_page (some p) HeadTo.Next = p + 1 ∧
    get_page (some p) HeadTo.Prev = p - 1 ∧
    get_page (some p) HeadTo.Initial = 0 :=
  ⟨⟨rfl, rfl, rfl⟩, rfl, rfl, rfl⟩

/-! ## Data model (`ui` module types; `event.rs` only references them) -/

/-- `ui::Window`: which pane currently has focus; `None` is the terminal
"shutting down" value. -/
inductive Window
  | None
  | Sidebar
  | Searchbar
  | Musicbar
  | Playlistbar
  | Artistbar
  | Helpbar
deriving DecidableEq, Repr

/-- Modelled from the spec: `Window::next`, the fixed cyclic ordering over
the five panes used during normal operation (wrap-around over the
non-`None`, non-`Helpbar` members); the terminal values are left fixed. -/
def Window.next : Window → Window
  | Window.Sidebar => Window.Musicbar
  | Window.Musicbar => Window.Playlistbar
  | Window.Playlistbar => Window.Artistbar
  | Window.Artistbar => Window.Searchbar
  | Window.Searchbar => Window.Sidebar
  | Window.None => Window.None
  | Window.Helpbar => Window.Helpbar

/-- Modelled from the spec: `Window::prev`, inverse cycle of `Window.next`. -/
def Window.prev : Window → Window
  | Window.Sidebar => Window.Searchbar
  | Window.Searchbar => Window.Artistbar
  | Window.Artistbar => Window.Playlistbar
  | Window.Playlistbar => Window.Musicbar
  | Window.Musicbar => Window.Sidebar
  | Window.None => Window.None
  | Window.Helpbar => Window.Helpbar

/-- Modelled from the spec: `ui::MusicbarSource`, the tagged source
descriptor for the musicbar pane: `Trending | Search(query) | Playlist(id)
| Artist(id) | None`. -/
inductive MusicbarSource
  | Trending
  | Search (query : String)
  | Playlist (id : String)
  | Artist (id : String)
  | None
deriving DecidableEq, Repr

/-- Modelled from the spec: `ui::PlaylistbarSource`, the source descriptor
for the playlistbar pane. -/
inductive PlaylistbarSource
  | Trending
  | Search (query : String)
  | Artist (id : String)
  | None
deriving DecidableEq, Repr

/-- Modelled from the spec: `ui::ArtistbarSource`, the source descriptor
for the artistbar pane. -/
inductive ArtistbarSource
  | Trending
  | Search (query : String)
  | None
deriving DecidableEq, Repr

/-- Modelled from the spec: `ui::SidebarOption`, the fixed sidebar menu
entry set `{Trending, YoutubeCommunity, Favourates, RecentlyPlayed, Search,
None}` decoded from the sidebar's selected index. -/
inductive SidebarOption
  | Trending
  | YoutubeCommunity
  | Favourates
  | RecentlyPlayed
  | Search
  | None
deriving DecidableEq, Repr

/-- Modelled from the spec: `ui::utils::SIDEBAR_LIST_COUNT`, the number of
sidebar menu entries. -/
def SIDEBAR_LIST_COUNT : Nat := 6

/-- Modelled from the spec: `SidebarOption::try_from(usize)`, the fail-fast
index-to-variant decoding (`TryFrom`); indices outside the known set yield
an error (`none` here), which `handle_enter` unwraps. -/
def SidebarOption.try_from : Nat → Option SidebarOption
  | 0 => some SidebarOption.Trending
  | 1 => some SidebarOption.YoutubeCommunity
  | 2 => some SidebarOption.Favourates
  | 3 => some SidebarOption.RecentlyPlayed
  | 4 => some SidebarOption.Search
  | 5 => some SidebarOption.None
  | _ => none

/-- `tui::widgets::TableState` / `ListState`: only the optional selected
index matters to this core. -/
structure TableState where
  selected : Option Nat
deriving DecidableEq, Repr

/-- `fetcher::ArtistUnit` (fields as constructed in `event_sender`). -/
structure ArtistUnit where
  name : String
  id : String
  video_count : String
deriving DecidableEq, Repr

/-- Modelled from the spec: a musicbar item has at least an opaque `id` and
a display `name` (`event.rs` reads only `.id`). -/
structure MusicUnit where
  id : String
  name : String
deriving DecidableEq, Repr

/-- Modelled from the spec: a playlistbar item has at least an opaque `id`
and a display `name` (`event.rs` reads only `.id`). -/
structure PlaylistUnit where
  id : String
  name : String
deriving DecidableEq, Repr

/-- `state.fetched_page: [Option<usize>; 3]`, indexed by
`MIDDLE_MUSIC_INDEX = 0`, `MIDDLE_PLAYLIST_INDEX = 1`,
`MIDDLE_ARTIST_INDEX = 2`. -/
structure Pages where
  music : Option Nat
  playlist : Option Nat
  artist : Option Nat
deriving DecidableEq, Repr

def MIDDLE_MUSIC_INDEX : Nat := 0
def MIDDLE_PLAYLIST_INDEX : Nat := 1
def MIDDLE_ARTIST_INDEX : Nat := 2

/-- Array read `state.fetched_page[i]` for the three valid indices. -/
def Pages.get (pg : Pages) : Nat → Option Nat
  | 0 => pg.music
  | 1 => pg.playlist
  | 2 => pg.artist
  | _ => none

/-- Array write `state.fetched_page[i] = v` for the three valid indices. -/
def Pages.set (pg : Pages) : Nat → Option Nat → Pages
  | 0, v => { pg with music := v }
  | 1, v => { pg with playlist := v }
  | 2, v => { pg with artist := v }
  | _, _ => pg

/-- Modelled from the spec: `ui::State`, the single shared record. Fields
mirror the ones `event.rs` touches: `active`, `sidebar` (list state),
the three `(items, table-state)` pane pairs, `search = (draft, committed)`,
`fetched_page`, `filled_source` (one descriptor per middle pane), the
status/help message, and the playback pause flag. -/
structure State where
  active : Window
  sidebar : TableState
  musicbar : List MusicUnit × TableState
  playlistbar : List PlaylistUnit × TableState
  artistbar : List ArtistUnit × TableState
  search : String × String
  fetched_page : Pages
  filled_source : MusicbarSource × PlaylistbarSource × ArtistbarSource
  help : String
  paused : Bool
deriving DecidableEq, Repr

/-- Result of one handler invocation: the post-state and whether the
handler called `notifier.notify_all()` on that path. -/
structure HOut where
  state : State
  notified : Bool
deriving DecidableEq, Repr

/-! ## Action handlers (the closures of `event_sender`) -/

/-- The fixed built-in artist entry set (`youtube_community_channels`). -/
def youtube_community_channels : List ArtistUnit :=
  [{ name := "Youtube Music Global Charts",
     id := "UCrKZcyOJVWnJ60zM1XWllNw",
     video_count := "NaN" }]

/-- `advance_sidebar`: move the sidebar selection by `direction` over the
`SIDEBAR_LIST_COUNT` entries (`selected().unwrap_or_default()`). -/
def advance_sidebar (s : State) (direction : HeadTo) : HOut :=
  let current := s.sidebar.selected.getD 0
  { state := { s with
      sidebar := ⟨some (advance_index current SIDEBAR_LIST_COUNT direction)⟩ },
    notified := true }

/-- `advance_music_list`: select index 0 when nothing is selected, else
advance by `direction` over the current musicbar length; then
unconditionally `select(Some(next_index))`. -/
def advance_music_list (s : State) (direction : HeadTo) : HOut :=
  let next_index :=
    match s.musicbar.2.selected with
    | none => 0
    | some current => advance_index current s.musicbar.1.length direction
  { state := { s with musicbar := (s.musicbar.1, ⟨some next_index⟩) },
    notified := true }

/-- `advance_playlist_list`: same as `advance_music_list` for the
playlistbar. -/
def advance_playlist_list (s : State) (direction : HeadTo) : HOut :=
  let next_index :=
    match s.playlistbar.2.selected with
    | none => 0
    | some current => advance_index current s.playlistbar.1.length direction
  { state := { s with playlistbar := (s.playlistbar.1, ⟨some next_index⟩) },
    notified := true }

/-- `advance_artist_list`: same as `advance_music_list` for the artistbar.
The source comment says the closure must "return instantly" on an empty
list to avoid `select(Some(0))`, but no such return exists in the code;
the unconditional select is modelled faithfully. -/
def advance_artist_list (s : State) (direction : HeadTo) : HOut :=
  let next_index :=
    match s.artistbar.2.selected with
    | none => 0
    | some current => advance_index current s.artistbar.1.length direction
  { state := { s with artistbar := (s.artistbar.1, ⟨some next_index⟩) },
    notified := true }

/-- `quit`: set the active window to the terminal value `None` and wake. -/
def quit (s : State) : HOut :=
  { state := { s with active := Window.None }, notified := true }

/-- `moveto_next_window`: `active = active.next()`. -/
def moveto_next_window (s : State) : HOut :=
  { state := { s with active := s.active.next }, notified := true }

/-- `moveto_prev_window`: `active = active.prev()`. -/
def moveto_prev_window (s : State) : HOut :=
  { state := { s with active := s.active.prev }, notified := true }

/-- `handle_esc`: from the searchbar, clear the draft and move to the next
window; from anywhere else, do nothing (and do not notify). -/
def handle_esc (s : State) : HOut :=
  if s.active = Window.Searchbar then
    moveto_next_window { s with search := ("", s.search.2) }
  else
    { state := s, notified := false }

/-- `handle_backspace`: from the searchbar, pop the last draft character;
from anywhere else, fall back to `moveto_prev_window`. -/
def handle_backspace (s : State) : HOut :=
  match s.active with
  | Window.Searchbar =>
    { state := { s with search := (s.search.1.dropRight 1, s.search.2) },
      notified := true }
  | _ => moveto_prev_window s

/-- `handle_search_input`: push the received character onto the draft. -/
def handle_search_input (s : State) (ch : Char) : HOut :=
  { state := { s with search := (s.search.1.push ch, s.search.2) },
    notified := true }

/-- `activate_search`: move focus to the searchbar. -/
def activate_search (s : State) : HOut :=
  { state := { s with active := Window.Searchbar }, notified := true }

/-- `show_help`: only an `eprintln!`; no state mutation and no wake. -/
def show_help (s : State) : HOut :=
  { state := s, notified := false }

/-- `handle_up_down`: route Up/Down to the active pane's advance handler;
for the remaining windows move focus instead. The `Initial` direction is
`unreachable!` there (a panic, modelled as `none`); the dispatcher only
passes `Next`/`Prev`. -/
def handle_up_down (s : State) (direction : HeadTo) : Option HOut :=
  match s.active with
  | Window.Sidebar => some (advance_sidebar s direction)
  | Window.Musicbar => some (advance_music_list s direction)
  | Window.Playlistbar => some (advance_playlist_list s direction)
  | Window.Artistbar => some (advance_artist_list s direction)
  | _ =>
    match direction with
    | HeadTo.Next => some (moveto_next_window s)
    | HeadTo.Prev => some (moveto_prev_window s)
    | HeadTo.Initial => none

/-- `start_search`: commit `search.1 = trim(search.0)`, reset
`fetched_page = [Some(0); 3]`, point all three source descriptors at
`Search(query)`, and set the status message. -/
def start_search (s : State) : HOut :=
  let query := s.search.1.trim
  { state := { s with
      search := (s.search.1, query),
      fetched_page := ⟨some 0, some 0, some 0⟩,
      filled_source :=
        (MusicbarSource.Search query, PlaylistbarSource.Search query,
         ArtistbarSource.Search query),
      help := "Searching.." },
    notified := true }

/-- `fill_trending_music`: advance the music page slot via `get_page`, set
the music source descriptor to `Trending`, set the status message. -/
def fill_trending_music (s : State) (direction : HeadTo) : HOut :=
  { state := { s with
      fetched_page := s.fetched_page.set MIDDLE_MUSIC_INDEX
        (some (get_page (s.fetched_page.get MIDDLE_MUSIC_INDEX) direction)),
      filled_source := (MusicbarSource.Trending, s.filled_source.2),
      help := "Fetching.." },
    notified := true }

/-- `fill_community_source`: replace the artistbar items with the fixed
built-in entry set and focus the artistbar. -/
def fill_community_source (s : State) : HOut :=
  { state := { s with
      artistbar := (youtube_community_channels, s.artistbar.2),
      active := Window.Artistbar },
    notified := true }

/-- `fill_recents_music`: intentional stub no-op. -/
def fill_recents_music (s : State) (_direction : HeadTo) : HOut :=
  { state := s, notified := false }

/-- `fill_favourates_music`: intentional stub no-op. -/
def fill_favourates_music (s : State) (_direction : HeadTo) : HOut :=
  { state := s, notified := false }

/-- `fill_favourates_artist`: intentional stub no-op. -/
def fill_favourates_artist (s : State) (_direction : HeadTo) : HOut :=
  { state := s, notified := false }

/-- `fill_music_from_playlist`: when the music source descriptor is
`Playlist(id)`, re-assert it, advance the music page slot, set the status
message and wake; otherwise do nothing. -/
def fill_music_from_playlist (s : State) (direction : HeadTo) : HOut :=
  match s.filled_source.1 with
  | MusicbarSource.Playlist playlist_id =>
    { state := { s with
        filled_source := (MusicbarSource.Playlist playlist_id, s.filled_source.2),
        fetched_page := s.fetched_page.set MIDDLE_MUSIC_INDEX
          (some (get_page (s.fetched_page.get MIDDLE_MUSIC_INDEX) direction)),
        help := "Fetching playlist.." },
      notified := true }
  | _ => { state := s, notified := false }

/-- `fill_music_from_artist`: when the music source descriptor is
`Artist(id)`, re-assert it, advance the music page slot, set the status
message and wake; otherwise do nothing. -/
def fill_music_from_artist (s : State) (direction : HeadTo) : HOut :=
  match s.filled_source.1 with
  | MusicbarSource.Artist artist_id =>
    { state := { s with
        filled_source := (MusicbarSource.Artist artist_id, s.filled_source.2),
        fetched_page := s.fetched_page.set MIDDLE_MUSIC_INDEX
          (some (get_page (s.fetched_page.get MIDDLE_MUSIC_INDEX) direction)),
        help := "Fetching channel.." },
      notified := true }
  | _ => { state := s, notified := false }

/-- `fill_playlist_from_artist`: when the playlist source descriptor is
`Artist(id)`, re-assert it, advance the playlist page slot, set the status
message and wake; otherwise do nothing. -/
def fill_playlist_from_artist (s : State) (direction : HeadTo) : HOut :=
  match s.filled_source.2.1 with
  | PlaylistbarSource.Artist artist_id =>
    { state := { s with
        filled_source :=
          (s.filled_source.1, PlaylistbarSource.Artist artist_id,
           s.filled_source.2.2),
        fetched_page := s.fetched_page.set MIDDLE_PLAYLIST_INDEX
          (some (get_page (s.fetched_page.get MIDDLE_PLAYLIST_INDEX) direction)),
        help := "Fetching channel.." },
      notified := true }
  | _ => { state := s, notified := false }

/-- `handle_play_advance`: intentional stub no-op. -/
def handle_play_advance (s : State) (_direction : HeadTo) : HOut :=
  { state := s, notified := false }

/-- `handle_page_nav`: when one of the three middle panes is active,
advance its pagination slot via `get_page` and wake; early return (no
mutation, no wake) for any other focus. -/
def handle_page_nav (s : State) (direction : HeadTo) : HOut :=
  match s.active with
  | Window.Musicbar =>
    { state := { s with
        fetched_page := s.fetched_page.set MIDDLE_MUSIC_INDEX
          (some (get_page (s.fetched_page.get MIDDLE_MUSIC_INDEX) direction)) },
      notified := true }
  | Window.Playlistbar =>
    { state := { s with
        fetched_page := s.fetched_page.set MIDDLE_PLAYLIST_INDEX
          (some (get_page (s.fetched_page.get MIDDLE_PLAYLIST_INDEX) direction)) },
      notified := true }
  | Window.Artistbar =>
    { state := { s with
        fetched_page := s.fetched_page.set MIDDLE_ARTIST_INDEX
          (some (get_page (s.fetched_page.get MIDDLE_ARTIST_INDEX) direction)) },
      notified := true }
  | _ => { state := s, notified := false }

/-- Modelled from the spec: `ui::State::play_music(id)` delegates playback
of the selected item's id to the external playback engine (§6 collaborator
interface); it writes none of this core's shared-state fields. -/
def play_music (s : State) (_music_id : String) : HOut :=
  { state := s, notified := false }

/-- Modelled from the spec: `ui::State::activate_playlist(id)` hands the
playlist id to the external playback/fetch collaborators; it writes none
of this core's shared-state fields (the descriptor and page updates are
done explicitly by `handle_enter` and `fill_music_from_playlist`). -/
def activate_playlist (s : State) (_playlist_id : String) : State :=
  s

/-- Modelled from the spec: `ui::State::toggle_pause(notifier)` flips the
playback pause flag and wakes the playback collaborator. -/
def toggle_pause (s : State) : HOut :=
  { state := { s with paused := !s.paused }, notified := true }

/-- `handle_enter`: contextual dispatch on the active window. Returning
`none` models a panic: the `unwrap()` on an unset sidebar selection, the
`unwrap()` on a failed `SidebarOption::try_from`, or an out-of-bounds
`Vec` index on one of the three list panes. -/
def handle_enter (s : State) : Option HOut :=
  match s.active with
  | Window.Sidebar =>
    match s.sidebar.selected with
    | none => none
    | some idx =>
      match SidebarOption.try_from idx with
      | none => none
      | some side_select =>
        match side_select with
        | SidebarOption.Trending => some (fill_trending_music s HeadTo.Initial)
        | SidebarOption.YoutubeCommunity => some (fill_community_source s)
        | SidebarOption.Favourates =>
          some (fill_favourates_music s HeadTo.Initial)
        | SidebarOption.RecentlyPlayed =>
          some (fill_recents_music s HeadTo.Initial)
        | SidebarOption.Search => some (activate_search s)
        | SidebarOption.None => some { state := s, notified := false }
  | Window.Searchbar => some (start_search s)
  | Window.Musicbar =>
    match s.musicbar.2.selected with
    | none => some { state := s, notified := false }
    | some selected_index =>
      match s.musicbar.1.get? selected_index with
      | none => none
      | some music_unit => some (play_music s music_unit.id)
  | Window.Playlistbar =>
    match s.playlistbar.2.selected with
    | none => some { state := s, notified := false }
    | some selected_index =>
      match s.playlistbar.1.get? selected_index with
      | none => none
      | some playlist_unit =>
        let s1 := activate_playlist s playlist_unit.id
        let s2 := { s1 with
          filled_source :=
            (MusicbarSource.Playlist playlist_unit.id, s1.filled_source.2) }
        some { state := (fill_music_from_playlist s2 HeadTo.Initial).state,
               notified := true }
  | Window.Artistbar =>
    match s.artistbar.2.selected with
    | none => some { state := s, notified := false }
    | some selected_index =>
      match s.artistbar.1.get? selected_index with
      | none => none
      | some artist_unit =>
        let s1 := { s with
          filled_source :=
            (MusicbarSource.Artist artist_unit.id,
             PlaylistbarSource.Artist artist_unit.id, s.filled_source.2.2) }
        let h1 := fill_music_from_artist s1 HeadTo.Initial
        let h2 := fill_playlist_from_artist h1.state HeadTo.Initial
        some { state := h2.state, notified := h1.notified || h2.notified }
  | Window.None => some { state := s, notified := false }
  | Window.Helpbar => some { state := s, notified := false }

/-! ## Dispatcher / input loop -/

def SEARCH_SH_KEY : Char := '/'
def HELP_SH_KEY : Char := '?'
def NEXT_SH_KEY : Char := 'n'
def PREV_SH_KEY : Char := 'p'
def QUIT_SH_KEY : Char := 'c'
def SEEK_F_KEY : Char := '>'
def SEEK_B_KEY : Char := '<'
def TOGGLE_PAUSE_KEY : Char := ' '

/-- `crossterm::event::KeyCode`, restricted to the codes the dispatcher
matches on; everything else is the wildcard `Other`. -/
inductive KeyCode
  | Down
  | PageDown
  | Up
  | PageUp
  | Right
  | Tab
  | Left
  | BackTab
  | Esc
  | Enter
  | Backspace
  | Delete
  | Char (c : Char)
  | Other
deriving DecidableEq, Repr

/-- A decoded key event: the code plus whether CONTROL is held
(`key.modifiers.contains(KeyModifiers::CONTROL)`). -/
structure KeyEvent where
  code : KeyCode
  ctrl : Bool
deriving DecidableEq, Repr

/-- `crossterm::event::Event`: key, resize or mouse. -/
inductive Event
  | Key (k : KeyEvent)
  | Resize
  | Mouse
deriving DecidableEq, Repr

/-- Result of dispatching one event: the post-state, whether any wake was
issued, and whether the listener loop breaks (`break 'listener_loop`). -/
structure StepOut where
  state : State
  notified : Bool
  exits : Bool
deriving DecidableEq, Repr

/-- Lift a handler result into a step result that keeps the loop running. -/
def toStep (h : HOut) : StepOut :=
  { state := h.state, notified := h.notified, exits := false }

/-- The `KeyCode::Char(ch)` arm of the dispatcher: if the searchbar is
active every character is search input; otherwise the single-character
shortcut chain runs in source order. -/
def handle_char (s : State) (ch : Char) (is_with_control : Bool) : StepOut :=
  if s.active = Window.Searchbar then
    toStep (handle_search_input s ch)
  else if ch == SEARCH_SH_KEY then
    toStep (activate_search s)
  else if ch == HELP_SH_KEY then
    toStep (show_help s)
  else if ch == QUIT_SH_KEY && is_with_control then
    { state := (quit s).state, notified := (quit s).notified, exits := true }
  else if ch == NEXT_SH_KEY then
    if is_with_control then toStep (handle_play_advance s HeadTo.Next)
    else toStep (handle_page_nav s HeadTo.Next)
  else if ch == PREV_SH_KEY then
    if is_with_control then toStep (handle_play_advance s HeadTo.Prev)
    else toStep (handle_page_nav s HeadTo.Prev)
  else if ch == SEEK_F_KEY then
    { state := s, notified := false, exits := false }
  else if ch == SEEK_B_KEY then
    { state := s, notified := false, exits := false }
  else if ch == TOGGLE_PAUSE_KEY then
    toStep (toggle_pause s)
  else
    { state := s, notified := false, exits := false }

/-- One dispatch of a received event (the body of the `match event::read()`
in `event_sender`). `none` models a panic inside a handler. -/
def stepEvent (s : State) (e : Event) : Option StepOut :=
  match e with
  | Event.Key k =>
    match k.code with
    | KeyCode.Down => (handle_up_down s HeadTo.Next).map toStep
    | KeyCode.PageDown => (handle_up_down s HeadTo.Next).map toStep
    | KeyCode.Up => (handle_up_down s HeadTo.Prev).map toStep
    | KeyCode.PageUp => (handle_up_down s HeadTo.Prev).map toStep
    | KeyCode.Right => some (toStep (moveto_next_window s))
    | KeyCode.Tab => some (toStep (moveto_next_window s))
    | KeyCode.Left => some (toStep (moveto_prev_window s))
    | KeyCode.BackTab => some (toStep (moveto_prev_window s))
    | KeyCode.Esc => some (toStep (handle_esc s))
    | KeyCode.Enter => (handle_enter s).map toStep
    | KeyCode.Backspace => some (toStep (handle_backspace s))
    | KeyCode.Delete => some (toStep (handle_backspace s))
    | KeyCode.Char ch => some (handle_char s ch k.ctrl)
    | KeyCode.Other => some { state := s, notified := false, exits := false }
  | Event.Resize => some { state := s, notified := true, exits := false }
  | Event.Mouse => some { state := s, notified := false, exits := false }

/-- Outcome of the input source for one loop iteration: a timeout
(`poll` returned false), a received event, or a poll/read failure. -/
inductive PollResult
  | Timeout
  | Got (e : Event)
  | PollErr
  | ReadErr
deriving DecidableEq, Repr

/-- One iteration of `'listener_loop'`. On timeout the loop wakes the
collaborators unconditionally. `event::poll(..).unwrap()` and
`event::read().unwrap()` panic on failure — modelled as `none`: the
iteration produces no successor state and no error value reaches the
caller (`event_sender` returns no error type at all). -/
def loopIter (s : State) (p : PollResult) : Option StepOut :=
  match p with
  | PollResult.Timeout => some { state := s, notified := true, exits := false }
  | PollResult.Got e => stepEvent s e
  | PollResult.PollErr => none
  | PollResult.ReadErr => none

/-! ## Concrete states for witnesses and counterexamples -/

/-- A startup-like state: sidebar focused, all panes empty, nothing
fetched yet. -/
def initState : State :=
  { active := Window.Sidebar,
    sidebar := ⟨some 0⟩,
    musicbar := ([], ⟨none⟩),
    playlistbar := ([], ⟨none⟩),
    artistbar := ([], ⟨none⟩),
    search := ("", ""),
    fetched_page := ⟨none, none, none⟩,
    filled_source :=
      (MusicbarSource.None, PlaylistbarSource.None, ArtistbarSource.None),
    help := "",
    paused := false }

/-- Searchbar focused with draft `"jazz"` typed and nothing committed. -/
def searchState : State :=
  { initState with active := Window.Searchbar, search := ("jazz", "") }

/-- Artistbar focused with an empty item list and no selection. -/
def emptyArtistState : State :=
  { initState with active := Window.Artistbar }

/-- Sidebar focused but with the sidebar selection unset. -/
def sidebarUnsetState : State :=
  { initState with sidebar := ⟨none⟩ }

/-! ## Theorems for the remaining claims -/

theorem get_page_initial (c : Option Nat) : get_page c HeadTo.Initial = 0 := by
  cases c <;> rfl

/-- Claim C1 (code bug evaluation): pressing Down while the artistbar has
focus, an empty item list and no selection makes the handler call
`select(Some(0))` on the empty list — the selection becomes `Some 0`
although the sequence is empty, violating `selection < length`. -/
theorem advancing_empty_artistbar_selects_zero :
    (stepEvent emptyArtistState (Event.Key ⟨KeyCode.Down, false⟩)).map
        (fun out => (out.state.artistbar.1, out.state.artistbar.2.selected)) =
      some ([], some 0) := rfl

/-- Claim C2 counterexample: with the searchbar focused (draft `"jazz"`),
Ctrl+`c` does not quit — the character is appended to the draft, the
active window stays `Searchbar` (not the terminal value `None`) and the
dispatch loop does not exit. -/
theorem ctrl_c_in_searchbar_is_search_input :
    (stepEvent searchState (Event.Key ⟨KeyCode.Char 'c', true⟩)).map
        (fun out => (out.state.active, out.state.search.1, out.exits)) =
      some (Window.Searchbar, "jazzc", false) := rfl

/-- Claim C2 (amended): for every focus other than `Searchbar`, Ctrl+`c`
triggers the quit action: the active window becomes the terminal value
`None`, a wake is issued and the dispatch loop exits. -/
theorem ctrl_c_quits_outside_searchbar (s : State)
    (h : s.active ≠ Window.Searchbar) :
    stepEvent s (Event.Key ⟨KeyCode.Char 'c', true⟩) =
      some { state := { s with active := Window.None },
             notified := true, exits := true } := by
  simp [stepEvent, handle_char, h, quit, SEARCH_SH_KEY, HELP_SH_KEY,
    QUIT_SH_KEY]

/-- Witness for the amended C2: Ctrl+`c` from the sidebar-focused startup
state quits. -/
theorem ctrl_c_quits_outside_searchbar_witness :
    stepEvent initState (Event.Key ⟨KeyCode.Char 'c', true⟩) =
      some { state := { initState with active := Window.None },
             notified := true, exits := true } :=
  ctrl_c_quits_outside_searchbar initState (by decide)

/-- Claim C3 (code bug evaluation): Enter with the sidebar focused and the
sidebar selection unset is not a defensive no-op — the handler panics
(`state.sidebar.selected().unwrap()` on `None`, modelled as `none`). -/
theorem enter_on_unset_sidebar_panics :
    stepEvent sidebarUnsetState (Event.Key ⟨KeyCode.Enter, false⟩) = none :=
  rfl

/-- Claim C4 (code bug evaluation): a poll or read failure of the input
source makes the loop iteration panic (`unwrap()` on the error, modelled
as `none`) instead of producing an error value for the caller —
`event_sender` has no error channel at all. -/
theorem poll_or_read_error_panics :
    loopIter initState PollResult.PollErr = none ∧
      loopIter initState PollResult.ReadErr = none :=
  ⟨rfl, rfl⟩

/-- Claim C5: Enter with the searchbar focused runs the submit-search
handler in one step: the committed query becomes the trimmed draft, all
three pagination slots reset to `Some 0`, all three source descriptors
become `Search(query)`, and the status message is set. -/
theorem enter_in_searchbar_submits (s : State) (m : Bool)
    (h : s.active = Window.Searchbar) :
    stepEvent s (Event.Key ⟨KeyCode.Enter, m⟩) =
      some { state := { s with
               search := (s.search.1, s.search.1.trim),
               fetched_page := ⟨some 0, some 0, some 0⟩,
               filled_source :=
                 (MusicbarSource.Search s.search.1.trim,
                  PlaylistbarSource.Search s.search.1.trim,
                  ArtistbarSource.Search s.search.1.trim),
               help := "Searching.." },
             notified := true, exits := false } := by
  simp [stepEvent, handle_enter, h, start_search, toStep]

/-- Witness for C5: submitting the draft `"jazz"` commits `"jazz"`. -/
theorem enter_in_searchbar_submits_witness :
    stepEvent searchState (Event.Key ⟨KeyCode.Enter, false⟩) =
      some { state := { searchState with
               search := (searchState.search.1, searchState.search.1.trim),
               fetched_page := ⟨some 0, some 0, some 0⟩,
               filled_source :=
                 (MusicbarSource.Search searchState.search.1.trim,
                  PlaylistbarSource.Search searchState.search.1.trim,
                  ArtistbarSource.Search searchState.search.1.trim),
               help := "Searching.." },
             notified := true, exits := false } :=
  enter_in_searchbar_submits searchState false rfl

/-- Claim C10: while the searchbar is active, every character key event —
any character, Control held or not — is appended to the search draft and
nothing else happens: no shortcut action fires, no other field changes,
and the loop does not exit. -/
theorem searchbar_captures_every_char (s : State) (ch : Char) (ctrl : Bool)
    (h : s.active = Window.Searchbar) :
    stepEvent s (Event.Key ⟨KeyCode.Char ch, ctrl⟩) =
      some { state := { s with search := (s.search.1.push ch, s.search.2) },
             notified := true, exits := false } := by
  simp [stepEvent, handle_char, h, handle_search_input, toStep]

/-- Witness for C10: the quit shortcut character with Control held is
still plain search input when the searchbar is active. -/
theorem searchbar_captures_every_char_witness :
    stepEvent searchState (Event.Key ⟨KeyCode.Char 'c', true⟩) =
      some { state := { searchState with
               search := (searchState.search.1.push 'c', searchState.search.2) },
             notified := true, exits := false } :=
  searchbar_captures_every_char searchState 'c' true rfl

theorem handle_up_down_wake (s : State) (d : HeadTo) (out : HOut)
    (h : handle_up_down s d = some out) :
    out.state ≠ s → out.notified = true := by
  unfold handle_up_down at h
  split at h
  · injection h with h; subst h; intro _; rfl
  · injection h with h; subst h; intro _; rfl
  · injection h with h; subst h; intro _; rfl
  · injection h with h; subst h; intro _; rfl
  · split at h
    · injection h with h; subst h; intro _; rfl
    · injection h with h; subst h; intro _; rfl
    · simp at h

theorem handle_page_nav_wake (s : State) (d : HeadTo) :
    (handle_page_nav s d).state ≠ s → (handle_page_nav s d).notified = true := by
  unfold handle_page_nav
  split
  · intro _; rfl
  · intro _; rfl
  · intro _; rfl
  · intro hne; exact absurd rfl hne

theorem handle_esc_wake (s : State) :
    (handle_esc s).state ≠ s → (handle_esc s).notified = true := by
  unfold handle_esc
  split
  · intro _; rfl
  · intro hne; exact absurd rfl hne

theorem handle_backspace_notifies (s : State) :
    (handle_backspace s).notified = true := by
  unfold handle_backspace
  split <;> rfl

theorem handle_char_wake (s : State) (ch : Char) (ctl : Bool) :
    (handle_char s ch ctl).state ≠ s → (handle_char s ch ctl).notified = true := by
  unfold handle_char
  split
  · intro _; rfl
  · split
    · intro _; rfl
    · split
      · intro hne; exact absurd rfl hne
      · split
        · intro _; rfl
        · split
          · split
            · intro hne; exact absurd rfl hne
            · exact handle_page_nav_wake s HeadTo.Next
          · split
            · split
              · intro hne; exact absurd rfl hne
              · exact handle_page_nav_wake s HeadTo.Prev
            · split
              · intro hne; exact absurd rfl hne
              · split
                · intro hne; exact absurd rfl hne
                · split
                  · intro _; rfl
                  · intro hne; exact absurd rfl hne

theorem handle_enter_wake (s : State) (out : HOut)
    (h : handle_enter s = some out) :
    out.state ≠ s → out.notified = true := by
  unfold handle_enter at h
  split at h
  · -- Sidebar
    split at h
    · simp at h
    · split at h
      · simp at h
      · split at h
        · injection h with h; subst h; intro _; rfl
        · injection h with h; subst h; intro _; rfl
        · injection h with h; subst h; intro hne; exact absurd rfl hne
        · injection h with h; subst h; intro hne; exact absurd rfl hne
        · injection h with h; subst h; intro _; rfl
        · injection h with h; subst h; intro hne; exact absurd rfl hne
  · -- Searchbar
    injection h with h; subst h; intro _; rfl
  · -- Musicbar
    split at h
    · injection h with h; subst h; intro hne; exact absurd rfl hne
    · split at h
      · simp at h
      · injection h with h; subst h; intro hne; exact absurd rfl hne
  · -- Playlistbar
    split at h
    · injection h with h; subst h; intro hne; exact absurd rfl hne
    · split at h
      · simp at h
      · injection h with h; subst h; intro _; rfl
  · -- Artistbar
    split at h
    · injection h with h; subst h; intro hne; exact absurd rfl hne
    · split at h
      · simp at h
      · injection h with h; subst h; intro _
        simp [fill_music_from_artist]
  · -- None
    injection h with h; subst h; intro hne; exact absurd rfl hne
  · -- Helpbar
    injection h with h; subst h; intro hne; exact absurd rfl hne

/-- Claim C9: no shared-state mutation completes without a wake — on every
dispatch of a key, resize, or timeout iteration that returns successfully,
if the resulting state differs from the starting state then
`notifier.notify_all()` was called on that path. -/
theorem mutation_implies_wake (s : State) (p : PollResult) (out : StepOut)
    (h : loopIter s p = some out) :
    out.state ≠ s → out.notified = true := by
  cases p with
  | PollErr => simp [loopIter] at h
  | ReadErr => simp [loopIter] at h
  | Timeout =>
    simp only [loopIter, Option.some.injEq] at h
    subst h; intro _; rfl
  | Got e =>
    cases e with
    | Resize =>
      simp only [loopIter, stepEvent, Option.some.injEq] at h
      subst h; intro _; rfl
    | Mouse =>
      simp only [loopIter, stepEvent, Option.some.injEq] at h
      subst h; intro hne; exact absurd rfl hne
    | Key k =>
      obtain ⟨code, ctl⟩ := k
      cases code with
      | Down =>
        simp only [loopIter, stepEvent] at h
        rcases hh : handle_up_down s HeadTo.Next with _ | ho <;> rw [hh] at h
        · simp at h
        · simp only [Option.map_some', Option.some.injEq] at h
          subst h; exact handle_up_down_wake s HeadTo.Next ho hh
      | PageDown =>
        simp only [loopIter, stepEvent] at h
        rcases hh : handle_up_down s HeadTo.Next with _ | ho <;> rw [hh] at h
        · simp at h
        · simp only [Option.map_some', Option.some.injEq] at h
          subst h; exact handle_up_down_wake s HeadTo.Next ho hh
      | Up =>
        simp only [loopIter, stepEvent] at h
        rcases hh : handle_up_down s HeadTo.Prev with _ | ho <;> rw [hh] at h
        · simp at h
        · simp only [Option.map_some', Option.some.injEq] at h
          subst h; exact handle_up_down_wake s HeadTo.Prev ho hh
      | PageUp =>
        simp only [loopIter, stepEvent] at h
        rcases hh : handle_up_down s HeadTo.Prev with _ | ho <;> rw [hh] at h
        · simp at h
        · simp only [Option.map_some', Option.some.injEq] at h
          subst h; exact handle_up_down_wake s HeadTo.Prev ho hh
      | Right =>
        simp only [loopIter, stepEvent, Option.some.injEq] at h
        subst h; intro _; rfl
      | Tab =>
        simp only [loopIter, stepEvent, Option.some.injEq] at h
        subst h; intro _; rfl
      | Left =>
        simp only [loopIter, stepEvent, Option.some.injEq] at h
        subst h; intro _; rfl
      | BackTab =>
        simp only [loopIter, stepEvent, Option.some.injEq] at h
        subst h; intro _; rfl
      | Esc =>
        simp only [loopIter, stepEvent, Option.some.injEq] at h
        subst h; exact handle_esc_wake s
      | Enter =>
        simp only [loopIter, stepEvent] at h
        rcases hh : handle_enter s with _ | ho <;> rw [hh] at h
        · simp at h
        · simp only [Option.map_some', Option.some.injEq] at h
          subst h; exact handle_enter_wake s ho hh
      | Backspace =>
        simp only [loopIter, stepEvent, Option.some.injEq] at h
        subst h; intro _; exact handle_backspace_notifies s
      | Delete =>
        simp only [loopIter, stepEvent, Option.some.injEq] at h
        subst h; intro _; exact handle_backspace_notifies s
      | Char ch =>
        simp only [loopIter, stepEvent, Option.some.injEq] at h
        subst h; exact handle_char_wake s ch ctl
      | Other =>
        simp only [loopIter, stepEvent, Option.some.injEq] at h
        subst h; intro hne; exact absurd rfl hne

/-- Witness for C9: pressing Down with the sidebar focused moves the
selection (a mutation) and the step reports a wake. -/
theorem mutation_implies_wake_witness :
    ({ state := { initState with sidebar := ⟨some 1⟩ }, notified := true,
       exits := false } : StepOut).notified = true :=
  mutation_implies_wake initState
    (PollResult.Got (Event.Key ⟨KeyCode.Down, false⟩))
    { state := { initState with sidebar := ⟨some 1⟩ }, notified := true,
      exits := false }
    (by decide) (by decide)

/-- The C6 postcondition relating a pre-state `s` to a post-state `t`:
any pane whose source descriptor differs has its pagination slot reset to
`Some 0`. -/
def PageResetOk (s t : State) : Prop :=
  (t.filled_source.1 ≠ s.filled_source.1 → t.fetched_page.music = some 0) ∧
  (t.filled_source.2.1 ≠ s.filled_source.2.1 →
    t.fetched_page.playlist = some 0) ∧
  (t.filled_source.2.2 ≠ s.filled_source.2.2 → t.fetched_page.artist = some 0)

theorem PageResetOk.of_eq {s t : State}
    (h : t.filled_source = s.filled_source) : PageResetOk s t := by
  simp [PageResetOk, h]

theorem handle_page_nav_source (s : State) (d : HeadTo) :
    (handle_page_nav s d).state.filled_source = s.filled_source := by
  unfold handle_page_nav
  split <;> rfl

theorem handle_up_down_page_reset (s : State) (d : HeadTo) (out : HOut)
    (h : handle_up_down s d = some out) : PageResetOk s out.state := by
  unfold handle_up_down at h
  split at h
  · injection h with h; subst h; exact PageResetOk.of_eq rfl
  · injection h with h; subst h; exact PageResetOk.of_eq rfl
  · injection h with h; subst h; exact PageResetOk.of_eq rfl
  · injection h with h; subst h; exact PageResetOk.of_eq rfl
  · split at h
    · injection h with h; subst h; exact PageResetOk.of_eq rfl
    · injection h with h; subst h; exact PageResetOk.of_eq rfl
    · simp at h

theorem handle_char_page_reset (s : State) (ch : Char) (ctl : Bool) :
    PageResetOk s (handle_char s ch ctl).state := by
  unfold handle_char
  split
  · exact PageResetOk.of_eq rfl
  · split
    · exact PageResetOk.of_eq rfl
    · split
      · exact PageResetOk.of_eq rfl
      · split
        · exact PageResetOk.of_eq rfl
        · split
          · split
            · exact PageResetOk.of_eq rfl
            · exact PageResetOk.of_eq (handle_page_nav_source s HeadTo.Next)
          · split
            · split
              · exact PageResetOk.of_eq rfl
              · exact PageResetOk.of_eq (handle_page_nav_source s HeadTo.Prev)
            · split
              · exact PageResetOk.of_eq rfl
              · split
                · exact PageResetOk.of_eq rfl
                · split
                  · exact PageResetOk.of_eq rfl
                  · exact PageResetOk.of_eq rfl

theorem handle_enter_page_reset (s : State) (out : HOut)
    (h : handle_enter s = some out) : PageResetOk s out.state := by
  unfold handle_enter at h
  split at h
  · -- Sidebar
    split at h
    · simp at h
    · split at h
      · simp at h
      · split at h
        · injection h with h; subst h
          simp [fill_trending_music, PageResetOk, Pages.set, Pages.get,
            MIDDLE_MUSIC_INDEX, get_page_initial]
        · injection h with h; subst h; exact PageResetOk.of_eq rfl
        · injection h with h; subst h; exact PageResetOk.of_eq rfl
        · injection h with h; subst h; exact PageResetOk.of_eq rfl
        · injection h with h; subst h; exact PageResetOk.of_eq rfl
        · injection h with h; subst h; exact PageResetOk.of_eq rfl
  · -- Searchbar
    injection h with h; subst h
    simp [start_search, PageResetOk]
  · -- Musicbar
    split at h
    · injection h with h; subst h; exact PageResetOk.of_eq rfl
    · split at h
      · simp at h
      · injection h with h; subst h; exact PageResetOk.of_eq rfl
  · -- Playlistbar
    split at h
    · injection h with h; subst h; exact PageResetOk.of_eq rfl
    · split at h
      · simp at h
      · injection h with h; subst h
        simp [activate_playlist, fill_music_from_playlist, PageResetOk,
          Pages.set, Pages.get, MIDDLE_MUSIC_INDEX, get_page_initial]
  · -- Artistbar
    split at h
    · injection h with h; subst h; exact PageResetOk.of_eq rfl
    · split at h
      · simp at h
      · injection h with h; subst h
        simp [fill_music_from_artist, fill_playlist_from_artist, PageResetOk,
          Pages.set, Pages.get, MIDDLE_MUSIC_INDEX, MIDDLE_PLAYLIST_INDEX,
          get_page_initial]
  · -- None
    injection h with h; subst h; exact PageResetOk.of_eq rfl
  · -- Helpbar
    injection h with h; subst h; exact PageResetOk.of_eq rfl

/-- Claim C6: invariant of the dispatch-loop step relation — whenever
dispatching an event changes a pane's source descriptor to a different
value, that pane's pagination slot is `Some 0` in the same step
(`PageResetOk`: per pane, descriptor changed → page reset). -/
theorem source_change_resets_page (s : State) (e : Event) (out : StepOut)
    (h : stepEvent s e = some out) : PageResetOk s out.state := by
  cases e with
  | Resize =>
    simp only [stepEvent, Option.some.injEq] at h
    subst h; exact PageResetOk.of_eq rfl
  | Mouse =>
    simp only [stepEvent, Option.some.injEq] at h
    subst h; exact PageResetOk.of_eq rfl
  | Key k =>
    obtain ⟨code, ctl⟩ := k
    cases code with
    | Down =>
      simp only [stepEvent] at h
      rcases hh : handle_up_down s HeadTo.Next with _ | ho <;> rw [hh] at h
      · simp at h
      · simp only [Option.map_some', Option.some.injEq] at h
        subst h; exact handle_up_down_page_reset s HeadTo.Next ho hh
    | PageDown =>
      simp only [stepEvent] at h
      rcases hh : handle_up_down s HeadTo.Next with _ | ho <;> rw [hh] at h
      · simp at h
      · simp only [Option.map_some', Option.some.injEq] at h
        subst h; exact handle_up_down_page_reset s HeadTo.Next ho hh
    | Up =>
      simp only [stepEvent] at h
      rcases hh : handle_up_down s HeadTo.Prev with _ | ho <;> rw [hh] at h
      · simp at h
      · simp only [Option.map_some', Option.some.injEq] at h
        subst h; exact handle_up_down_page_reset s HeadTo.Prev ho hh
    | PageUp =>
      simp only [stepEvent] at h
      rcases hh : handle_up_down s HeadTo.Prev with _ | ho <;> rw [hh] at h
      · simp at h
      · simp only [Option.map_some', Option.some.injEq] at h
        subst h; exact handle_up_down_page_reset s HeadTo.Prev ho hh
    | Right =>
      simp only [stepEvent, Option.some.injEq] at h
      subst h; exact PageResetOk.of_eq rfl
    | Tab =>
      simp only [stepEvent, Option.some.injEq] at h
      subst h; exact PageResetOk.of_eq rfl
    | Left =>
      simp only [stepEvent, Option.some.injEq] at h
      subst h; exact PageResetOk.of_eq rfl
    | BackTab =>
      simp only [stepEvent, Option.some.injEq] at h
      subst h; exact PageResetOk.of_eq rfl
    | Esc =>
      simp only [stepEvent, Option.some.injEq] at h
      subst h
      unfold handle_esc
      split
      · exact PageResetOk.of_eq rfl
      · exact PageResetOk.of_eq rfl
    | Enter =>
      simp only [stepEvent] at h
      rcases hh : handle_enter s with _ | ho <;> rw [hh] at h
      · simp at h
      · simp only [Option.map_some', Option.some.injEq] at h
        subst h; exact handle_enter_page_reset s ho hh
    | Backspace =>
      simp only [stepEvent, Option.some.injEq] at h
      subst h
      unfold handle_backspace
      split
      · exact PageResetOk.of_eq rfl
      · exact PageResetOk.of_eq rfl
    | Delete =>
      simp only [stepEvent, Option.some.injEq] at h
      subst h
      unfold handle_backspace
      split
      · exact PageResetOk.of_eq rfl
      · exact PageResetOk.of_eq rfl
    | Char ch =>
      simp only [stepEvent, Option.some.injEq] at h
      subst h; exact handle_char_page_reset s ch ctl
    | Other =>
      simp only [stepEvent, Option.some.injEq] at h
      subst h; exact PageResetOk.of_eq rfl

/-- Witness for C6: pressing Enter on the sidebar's Trending entry changes
the music source descriptor (from `None` to `Trending`) and the step has
indeed reset the music page slot to `Some 0`. -/
theorem source_change_resets_page_witness :
    ({ state := { initState with
         fetched_page := ⟨some 0, none, none⟩,
         filled_source :=
           (MusicbarSource.Trending, PlaylistbarSource.None,
            ArtistbarSource.None),
         help := "Fetching.." }, notified := true, exits := false }
      : StepOut).state.fetched_page.music = some 0 :=
  (source_change_resets_page initState (Event.Key ⟨KeyCode.Enter, false⟩)
      { state := { initState with
          fetched_page := ⟨some 0, none, none⟩,
          filled_source :=
            (MusicbarSource.Trending, PlaylistbarSource.None,
             ArtistbarSource.None),
          help := "Fetching.." }, notified := true, exits := false }
      (by decide)).1 (by decide)

end YtuiMusic
